import Mathlib

/-!
Shallow embedding of the fx-agent broker execution gateway
(`tradingagents/broker_interface/mt5_broker.py`) and of the decision
record construction of the meta agent
(`tradingagents/forex_meta/trade_meta_agent.py`).

State is passed explicitly.  The external MetaTrader5 venue library is
modelled as an oracle (`Venue`) recording, per call site, whether the
call returns a value, returns `None`, or raises.  Python floats are
modelled as rationals; Python's `round(x, n)` (round half to even) is
modelled exactly.  An uncaught Python exception escaping a gateway
operation is modelled as `Except.error`.  Log prints and wall-clock
timestamp fields that no claim mentions are dropped; message strings
are shortened to constant literals (the source interpolates values
into them) — all structure-bearing fields (`success`, `order_id`,
`retcode`, `data_source`, registries, connection state) are exact.
-/

namespace FxAgent

/-- Substring test on character lists: does the needle occur at the head? -/
def subAt : List Char → List Char → Bool
  | [], _ => true
  | _ :: _, [] => false
  | a :: xs, b :: ys => a == b && subAt xs ys

/-- Substring occurrence test over character lists. -/
def hasSub (needle : List Char) : List Char → Bool
  | [] => subAt needle []
  | c :: rest => subAt needle (c :: rest) || hasSub needle rest

/-- Python's `sub in s` on strings. -/
def containsSub (s sub : String) : Bool := hasSub sub.data s.data

/-- ASCII lower-casing, models Python `str.lower` on the inputs used here. -/
def lowerStr (s : String) : String := String.mk (s.data.map Char.toLower)

/-- ASCII upper-casing, models Python `str.upper`. -/
def upperStr (s : String) : String := String.mk (s.data.map Char.toUpper)

/-- Round half to even to an integer, as Python's `round` does. -/
def rhe (q : ℚ) : ℤ :=
  let f := ⌊q⌋
  let r := q - f
  if r < 1/2 then f
  else if r > 1/2 then f + 1
  else if f % 2 = 0 then f else f + 1

/-- Python `round(q, n)`. -/
def roundTo (n : ℕ) (q : ℚ) : ℚ := (rhe (q * 10 ^ n) : ℚ) / 10 ^ n

/-- Decimal digits to a natural number. -/
def digitsToNat (l : List Char) : ℕ := l.foldl (fun n c => 10 * n + (c.toNat - 48)) 0

/-- Strip leading spaces. -/
def dropSpaces (l : List Char) : List Char := l.dropWhile (fun c => c == ' ')

/-- Python `int(s)` on a string: optional surrounding spaces, optional
sign, at least one digit; `none` models a `ValueError`. -/
def parsePyInt (s : String) : Option ℤ :=
  match ((dropSpaces s.data).reverse |> dropSpaces).reverse with
  | [] => none
  | c :: rest =>
    if c == '-' then
      if !rest.isEmpty && rest.all Char.isDigit then some (-(digitsToNat rest : ℤ)) else none
    else if c == '+' then
      if !rest.isEmpty && rest.all Char.isDigit then some (digitsToNat rest : ℤ) else none
    else if (c :: rest).all Char.isDigit then some (digitsToNat (c :: rest) : ℤ)
    else none

/-- MT5 constant `TRADE_RETCODE_DONE`. -/
def TRADE_RETCODE_DONE : ℤ := 10009

/-- MT5 constant `TRADE_RETCODE_PLACED`. -/
def TRADE_RETCODE_PLACED : ℤ := 10008

/-- MT5 constant `ORDER_TYPE_BUY`. -/
def ORDER_TYPE_BUY : ℤ := 0

/-- MT5 constant `ORDER_TYPE_SELL`. -/
def ORDER_TYPE_SELL : ℤ := 1

/-- Response of one call into the external venue library: a value,
`None`, or a raised exception. -/
inductive VenueResp (α : Type) where
  | ok (a : α)
  | nil
  | exn
deriving DecidableEq

/-- A venue price tick (`symbol_info_tick`). -/
structure Tick where
  bid : ℚ
  ask : ℚ
deriving DecidableEq

/-- Venue reply to `order_send`. -/
structure SendResult where
  retcode : ℤ
  order : ℤ
  deal : ℤ
  comment : String
deriving DecidableEq

/-- A live open position as returned by `positions_get(ticket=...)`. -/
structure LivePos where
  ticket : ℤ
  symbol : String
  volume : ℚ
  type_ : ℤ
  sl : ℚ
  tp : ℚ
deriving DecidableEq

/-- A live pending order as returned by `orders_get(ticket=...)`. -/
structure PendingInfo where
  ticket : ℤ
  symbol : String
  price_open : ℚ
  sl : ℚ
  tp : ℚ
  volume_current : ℚ
  type_ : ℤ
deriving DecidableEq

/-- The venue oracle: one response per call site of the operation under
analysis. -/
structure Venue where
  initResult : VenueResp Bool := .nil
  loginResult : VenueResp Bool := .nil
  symbolInfo : VenueResp Unit := .nil
  symbolSelect : VenueResp Bool := .nil
  symbolInfo2 : VenueResp Unit := .nil
  tick : VenueResp Tick := .nil
  orderSend : VenueResp SendResult := .nil
  positionsGet : VenueResp (List LivePos) := .ok []
  ordersGet : VenueResp (List PendingInfo) := .ok []
deriving DecidableEq

/-- The `login` credential entry: Python allows an int or a string. -/
inductive LoginVal where
  | int (n : ℤ)
  | str (s : String)
deriving DecidableEq

/-- The credentials dict handed to `connect`. -/
structure Credentials where
  login : Option LoginVal := none
  password : Option String := none
  server : Option String := none
  path : Option String := none
deriving DecidableEq

/-- Python truthiness of the `login` credential value. -/
def loginTruthy : Option LoginVal → Bool
  | none => false
  | some (.int n) => n != 0
  | some (.str s) => s != ""

/-- Python `int(login_val)`; `none` models a `ValueError`. -/
def loginAsInt : Option LoginVal → Option ℤ
  | none => none
  | some (.int n) => some n
  | some (.str s) => parsePyInt s

/-- The `all([login_val, password, server])` truthiness check of
`connect` (mt5_broker.py line 68). -/
def credFieldsOk (c : Credentials) : Bool :=
  loginTruthy c.login && c.password.getD "" != "" && c.server.getD "" != ""

/-- One entry of `self.simulated_open_positions`. -/
structure SimPosition where
  id : String
  order_id_ref : String
  pair : String
  type_ : ℤ
  size : ℚ
  open_price : ℚ
  sl : ℚ
  tp : ℚ
  profit : ℚ
  comment : String
deriving DecidableEq

/-- The mutable fields of an `MT5Broker` instance. -/
structure BrokerState where
  connected : Bool
  credentials : Option Credentials
  simulated_open_positions : List SimPosition
  mt5_available : Bool
  mock_price_cache : List (String × ℚ)
deriving DecidableEq

/-- The `order_details` dict of `place_order`; absent keys are `none`. -/
structure OrderDetails where
  type_ : Option String := none
  side : Option String := none
  pair : Option String := none
  size : Option ℚ := none
  price : Option ℚ := none
  sl : Option ℚ := none
  tp : Option ℚ := none
  comment : Option String := none
deriving DecidableEq

/-- The result dict of the order operations. -/
structure OrderResult where
  success : Bool
  order_id : Option String := none
  message : String := ""
  retcode : Option ℤ := none
  data_source : String
  deal_id : Option String := none
deriving DecidableEq

/-- The price dict of `get_current_price`. -/
structure Quote where
  pair : String
  bid : ℚ
  ask : ℚ
  data_source : String
deriving DecidableEq

/-- Oracle for the random draws (`uuid4` tags, `np.random.uniform`). -/
structure Rng where
  ordTag : String
  posTag : String
  drift : ℚ
  e1 : ℚ
  e2 : ℚ
deriving DecidableEq

/-- A dict entry that can be absent, present with value `None`, or
present with a value. -/
inductive PyOpt (α : Type) where
  | absent
  | noneVal
  | val (a : α)
deriving DecidableEq

/-- Python `key in dict`. -/
def PyOpt.isKey : PyOpt α → Bool
  | .absent => false
  | _ => true

/-- Present with a non-`None` value. -/
def PyOpt.isVal : PyOpt α → Bool
  | .val _ => true
  | _ => false

/-- The value, when present and not `None`. -/
def PyOpt.toVal : PyOpt α → Option α
  | .val a => some a
  | _ => none

/-- The `new_params` dict of `modify_order`. -/
structure ModifyParams where
  sl : PyOpt ℚ := .absent
  tp : PyOpt ℚ := .absent
  price : PyOpt ℚ := .absent
deriving DecidableEq

/-- `MT5Broker.connect` (mt5_broker.py lines 59-87).  Note that the
missing-field and bad-login early returns (lines 68-72) leave both the
connection flag and the stored credentials untouched, and the
library-absent return (lines 60-63) clears only the connection flag;
the venue-side failures and the exception handler (lines 78-87) clear
both. -/
def connect (st : BrokerState) (venue : Venue) (creds : Credentials) :
    Bool × BrokerState :=
  if st.mt5_available = false then
    (false, { st with connected := false })
  else if credFieldsOk creds = false then
    (false, st)
  else
    match loginAsInt creds.login with
    | none => (false, st)
    | some _ =>
      let st1 : BrokerState := { st with credentials := some creds }
      match venue.initResult with
      | .ok true =>
        match venue.loginResult with
        | .ok true => (true, { st1 with connected := true })
        | _ => (false, { st1 with connected := false, credentials := none })
      | _ => (false, { st1 with connected := false, credentials := none })

/-- `MT5Broker.disconnect` (lines 89-96). -/
def disconnect (st : BrokerState) : BrokerState :=
  { st with connected := false, credentials := none }

/-- `MT5Broker._get_mock_current_price` (lines 117-130). -/
def get_mock_current_price (st : BrokerState) (rng : Rng) (pair : String) :
    Quote × BrokerState :=
  let pu := upperStr pair
  let base : ℚ := if containsSub pu "JPY" then 150
    else if containsSub pu "GBP" then 125/100 else 108/100
  let spread : ℚ := if containsSub pu "JPY" then 2/100
    else if containsSub pu "GBP" then 3/10000 else 2/10000
  let prev : ℚ := (st.mock_price_cache.lookup pair).getD base
  let nd : ℕ := if containsSub pu "JPY" then 3 else 5
  let mulU : ℚ := if containsSub pu "JPY" then 100 else 1
  let cur := roundTo nd (prev + rng.drift * mulU)
  let mulP : ℚ := if containsSub pair "JPY" then 100 else 1
  let ndP : ℕ := if containsSub pair "JPY" then 3 else 5
  let bid := roundTo ndP (cur - spread/2 + rng.e1 * mulP)
  let ask := roundTo ndP (cur + spread/2 + rng.e2 * mulP)
  ({ pair := pair, bid := bid, ask := ask, data_source := "mock" },
   { st with mock_price_cache :=
      (pair, cur) :: st.mock_price_cache.eraseP (fun kv => kv.1 == pair) })

/-- `MT5Broker.get_current_price` (lines 132-147).  The live tick call
is wrapped in try/except in the source, so an exception there falls
through to the mock path. -/
def get_current_price (st : BrokerState) (venue : Venue) (rng : Rng) (pair : String) :
    Quote × BrokerState :=
  if st.connected = false then get_mock_current_price st rng pair
  else if st.mt5_available then
    match venue.tick with
    | .ok t => ({ pair := pair, bid := t.bid, ask := t.ask, data_source := "live" }, st)
    | _ => get_mock_current_price st rng pair
  else get_mock_current_price st rng pair

/-- `MT5Broker._simulate_place_order` (lines 264-308).  For a market
order the source reads `order_details["pair"]` by direct indexing
(line 295); with the key absent this raises a `KeyError`, modelled as
`Except.error`. -/
def simulate_place_order (st : BrokerState) (rng : Rng) (od : OrderDetails)
    (failReason : String) : Except String (OrderResult × BrokerState) :=
  let simOrderId := "sim_ord_" ++ rng.ordTag
  let res : OrderResult :=
    { success := true, order_id := some simOrderId,
      message := "Order simulated successfully. " ++ failReason,
      data_source := "simulated" }
  if lowerStr (od.type_.getD "market") = "market" then
    match od.pair with
    | none => .error "KeyError: pair"
    | some pr =>
      let pu := upperStr pr
      let defPrice : ℚ := if containsSub pu "JPY" then 15025/100 else 10825/10000
      let openPrice : ℚ :=
        match od.sl with
        | none => defPrice
        | some slv =>
          let off : ℚ := if containsSub pu "JPY" then 1/2 else 1/200
          if lowerStr (od.side.getD "buy") = "buy" then slv + off else slv - off
      let pos : SimPosition :=
        { id := "sim_pos_" ++ rng.posTag, order_id_ref := simOrderId, pair := pr,
          type_ := if lowerStr (od.side.getD "buy") = "buy" then ORDER_TYPE_BUY
            else ORDER_TYPE_SELL,
          size := od.size.getD (1/100),
          open_price := roundTo (if containsSub pu "JPY" then 3 else 5) openPrice,
          sl := od.sl.getD 0, tp := od.tp.getD 0,
          profit := -(od.size.getD (1/100)) * 2,
          comment := od.comment.getD "SimPos" }
      .ok (res, { st with simulated_open_positions :=
        st.simulated_open_positions ++ [pos] })
  else .ok (res, st)

/-- The (type, side) to MT5 order-type map of `place_order`
(lines 322-333). -/
def orderTypeMap (k s : String) : Option ℤ :=
  if k = "market" then
    (if s = "buy" then some 0 else if s = "sell" then some 1 else none)
  else if k = "limit" then
    (if s = "buy" then some 2 else if s = "sell" then some 3 else none)
  else if k = "stop" then
    (if s = "buy" then some 4 else if s = "sell" then some 5 else none)
  else none

/-- A failed result dict carrying a message and a `data_source` tag. -/
def failRes (msg src : String) : OrderResult :=
  { success := false, message := msg, data_source := src }

/-- A failed result dict additionally carrying the venue retcode. -/
def rejectRes (msg : String) (rc : ℤ) (src : String) : OrderResult :=
  { success := false, message := msg, retcode := some rc, data_source := src }

/-- Failure result of a symbol-lookup exception in `place_order`. -/
def symFailExc : OrderResult :=
  { success := false, message := "Exception getting symbol info.",
    data_source := "live_attempt_failed" }

/-- Failure result when the symbol stays unresolved. -/
def symFailNotFound : OrderResult :=
  { success := false, message := "Symbol not found.",
    data_source := "live_attempt_failed" }

/-- Failure result when MarketWatch selection fails. -/
def symFailSelect : OrderResult :=
  { success := false, message := "Failed to select symbol.",
    data_source := "live_attempt_failed" }

/-- The symbol resolution step of `place_order` (lines 344-358):
`none` when the symbol is resolved, otherwise the failure result. -/
def symbolGate (venue : Venue) : Option OrderResult :=
  match venue.symbolInfo with
  | .ok _ => none
  | .exn => some symFailExc
  | .nil =>
    match venue.symbolSelect with
    | .exn => some symFailExc
    | .ok true =>
      match venue.symbolInfo2 with
      | .ok _ => none
      | .nil => some symFailNotFound
      | .exn => some symFailExc
    | _ => some symFailSelect

/-- The `order_send` step of `place_order` (lines 388-407): `None` and
exceptions fall back to simulation; a bad retcode is an honest failure
carrying the code. -/
def sendLive (st : BrokerState) (venue : Venue) (rng : Rng) (od : OrderDetails) :
    Except String (OrderResult × BrokerState) :=
  match venue.orderSend with
  | .exn => simulate_place_order st rng od "Exception during order_send"
  | .nil => simulate_place_order st rng od "Order send None result"
  | .ok r =>
    if r.retcode = TRADE_RETCODE_DONE ∨ r.retcode = TRADE_RETCODE_PLACED then
      .ok ({ success := true, order_id := some (toString r.order),
             message := "Order placed successfully.", data_source := "live" }, st)
    else
      .ok (rejectRes "Order failed (venue rejected)." r.retcode "live_attempt_failed", st)

/-- `MT5Broker.place_order` (lines 311-407).  The market-order tick
lookup (line 362) is not inside a try/except in the source, so a tick
exception escapes the call. -/
def place_order (st : BrokerState) (venue : Venue) (rng : Rng) (od : OrderDetails) :
    Except String (OrderResult × BrokerState) :=
  if st.connected = false then simulate_place_order st rng od "Not connected"
  else if st.mt5_available = false then simulate_place_order st rng od "MT5 library N/A"
  else
    let okt := lowerStr (od.type_.getD "market")
    let oks := lowerStr (od.side.getD "buy")
    match orderTypeMap okt oks with
    | none => .ok (failRes "Unsupported order type/side." "live_attempt_failed", st)
    | some _ =>
      if od.pair.getD "" = "" then
        .ok (failRes "Pair must be specified for placing an order." "input_error", st)
      else
        match symbolGate venue with
        | some r => .ok (r, st)
        | none =>
          if okt = "market" then
            match venue.tick with
            | .exn => .error "exception: symbol_info_tick"
            | .nil => .ok (failRes "Could not get tick." "live_attempt_failed", st)
            | .ok _ => sendLive st venue rng od
          else
            if od.price.getD 0 = 0 then
              .ok (failRes "Price must be set for pending orders." "input_error", st)
            else sendLive st venue rng od

/-- The in-place sl/tp update of `_simulate_modify_order`
(lines 416-427). -/
def modPos (p : ModifyParams) (pos : SimPosition) : SimPosition :=
  let p1 := match p.sl with | .val a => { pos with sl := a } | _ => pos
  match p.tp with | .val a => { p1 with tp := a } | _ => p1

/-- Update the first position whose `id` or `order_id_ref` matches;
flag whether one was found (the source loop breaks on the first hit). -/
def updateFirst (idq : String) (p : ModifyParams) :
    List SimPosition → Bool × List SimPosition
  | [] => (false, [])
  | pos :: rest =>
    if pos.id = idq ∨ pos.order_id_ref = idq then (true, modPos p pos :: rest)
    else
      let r := updateFirst idq p rest
      (r.1, pos :: r.2)

/-- `MT5Broker._simulate_modify_order` (lines 410-438). -/
def simulate_modify_order (st : BrokerState) (idq : String) (p : ModifyParams) :
    OrderResult × BrokerState :=
  let r := updateFirst idq p st.simulated_open_positions
  if r.1 then
    ({ success := true, message := "Modification simulated successfully.",
       data_source := "simulated" },
     { st with simulated_open_positions := r.2 })
  else
    ({ success := false, message := "Order/Position not found for simulated modification.",
       data_source := "simulated_failed_not_found" }, st)

/-- The `order_send` step of `modify_order` (lines 520-539): `None`
and exceptions fall back to the simulated modification. -/
def sendModify (st : BrokerState) (venue : Venue) (idq : String) (p : ModifyParams) :
    Except String (OrderResult × BrokerState) :=
  match venue.orderSend with
  | .exn => .ok (simulate_modify_order st idq p)
  | .nil => .ok (simulate_modify_order st idq p)
  | .ok r =>
    if r.retcode = TRADE_RETCODE_DONE then
      .ok ({ success := true, message := "Order/Position modified successfully.",
             data_source := "live" }, st)
    else
      .ok (rejectRes "Order/Position modify failed." r.retcode "live_attempt_failed", st)

/-- `MT5Broker.modify_order` (lines 440-539).  The live
`positions_get`/`orders_get` calls (lines 462, 475) are not inside a
try/except, so an exception there escapes.  In the open-position
branch the request carries sl/tp exactly for the keys present with a
non-`None` value and never a price, so the source's `no_change` flag
(lines 498-505) only records whether such keys exist — current values
are never compared; in the pending branch the rebuilt request always
carries price/sl/tp, so the "no actual change" success return
(line 517) is unreachable there. -/
def modify_order (st : BrokerState) (venue : Venue) (idq : String) (p : ModifyParams) :
    Except String (OrderResult × BrokerState) :=
  if st.connected = false then .ok (simulate_modify_order st idq p)
  else if st.mt5_available = false then .ok (simulate_modify_order st idq p)
  else
    match parsePyInt idq with
    | none => .ok (failRes "Invalid order_id format." "input_error", st)
    | some _ =>
      match venue.positionsGet with
      | .exn => .error "exception: positions_get"
      | pg =>
        match (match pg with | .ok l => l | _ => []) with
        | _ :: _ =>
          if p.sl.isVal = false ∧ p.tp.isVal = false then
            if p.sl.isKey = false ∧ p.tp.isKey = false ∧ p.price.isKey = false then
              .ok (failRes "No new SL, TP, or Price provided." "input_error", st)
            else
              .ok ({ success := true, message := "No actual change; modification not sent.",
                     data_source := "no_change_needed" }, st)
          else sendModify st venue idq p
        | [] =>
          match venue.ordersGet with
          | .exn => .error "exception: orders_get"
          | og =>
            match (match og with | .ok l => l | _ => []) with
            | [] => .ok (failRes "Order/Position not found." "live_attempt_failed_not_found", st)
            | info :: _ =>
              if p.price = .noneVal ∨ p.sl = .noneVal ∨ p.tp = .noneVal then
                .error "TypeError: float of None"
              else
                let reqPrice := (p.price.toVal).getD info.price_open
                let reqSl := (p.sl.toVal).getD info.sl
                let reqTp := (p.tp.toVal).getD info.tp
                if (reqPrice = info.price_open ∧ reqSl = info.sl ∧ reqTp = info.tp) ∧
                    p.sl.isKey = false ∧ p.tp.isKey = false ∧ p.price.isKey = false then
                  .ok (failRes "No new SL, TP, or Price provided." "input_error", st)
                else sendModify st venue idq p

/-- One step of the simulated close loop (lines 547-567): `none` drops
the position, `some` keeps (possibly shrunk). -/
def simCloseStep (idq : String) (sz : Option ℚ) (pos : SimPosition) : Option SimPosition :=
  if pos.id = idq ∨ pos.order_id_ref = idq then
    let cur := pos.size
    let eff := match sz with
      | some v => if v > 0 then v else cur
      | none => cur
    if eff ≥ cur - 1/100000 then none
    else
      let ns := roundTo 2 (cur - eff)
      if ns ≥ 1/100 then some { pos with size := ns, comment := "Partial close" }
      else none
  else some pos

/-- `MT5Broker._simulate_close_order` (lines 541-575). -/
def simulate_close_order (st : BrokerState) (idq : String) (sz : Option ℚ) :
    OrderResult × BrokerState :=
  let acted := st.simulated_open_positions.any
    (fun q => decide (q.id = idq ∨ q.order_id_ref = idq))
  let st' := { st with simulated_open_positions :=
    st.simulated_open_positions.filterMap (simCloseStep idq sz) }
  if acted then
    ({ success := true, message := "Close action simulated.",
       data_source := "simulated" }, st')
  else
    ({ success := false, message := "Position not found for simulated closing.",
       data_source := "simulated_failed_not_found" }, st')

/-- `MT5Broker.close_order` (lines 577-654).  `positions_get` is
wrapped in try/except here (lines 594-604) and falls back to
simulation, unlike in `modify_order`; the tick lookup (line 618) is
bare, so a tick exception escapes. -/
def close_order (st : BrokerState) (venue : Venue) (idq : String) (sz : Option ℚ) :
    Except String (OrderResult × BrokerState) :=
  if st.connected = false then .ok (simulate_close_order st idq sz)
  else if st.mt5_available = false then .ok (simulate_close_order st idq sz)
  else
    match parsePyInt idq with
    | none => .ok (failRes "Invalid ticket format for close_order." "input_error", st)
    | some _ =>
      match venue.positionsGet with
      | .exn => .ok (simulate_close_order st idq sz)
      | pg =>
        match (match pg with | .ok l => l | _ => []) with
        | [] => .ok (simulate_close_order st idq sz)
        | pos :: _ =>
          let vol := match sz with
            | some v => if v > 0 then roundTo 8 v else pos.volume
            | none => pos.volume
          if vol > pos.volume + 1/100000000 then
            .ok (failRes "Cannot close more than the available volume."
              "live_attempt_failed_insufficient_volume", st)
          else
            match venue.tick with
            | .exn => .error "exception: symbol_info_tick"
            | .nil =>
              .ok (failRes "Could not get current price to close position."
                "live_attempt_failed_no_price", st)
            | .ok _ =>
              match venue.orderSend with
              | .exn => .ok (simulate_close_order st idq sz)
              | .nil => .ok (simulate_close_order st idq sz)
              | .ok r =>
                if r.retcode = TRADE_RETCODE_DONE then
                  .ok ({ success := true, message := "Position closed successfully.",
                         order_id := some (toString r.order),
                         deal_id := some (toString r.deal),
                         data_source := "live" }, st)
                else
                  .ok (rejectRes "Position close failed." r.retcode "live_attempt_failed", st)

/-- One sub-agent proposal, from `forex_utils/forex_states.py`. -/
structure ForexProposal where
  proposal_id : String
  source_agent_type : String
  signal : String
  confidence_score : ℚ
  sub_agent_risk_level : String
  entry_price : Option ℚ := none
  stop_loss : Option ℚ := none
  take_profit : Option ℚ := none
deriving DecidableEq

/-- The aggregated proposals handed to the meta agent. -/
structure AggregatedForexProposals where
  aggregation_id : String
  currency_pair : String
  proposals : List ForexProposal
deriving DecidableEq

/-- The final decision record built by the meta agent. -/
structure ForexFinalDecision where
  decision_id : String
  currency_pair : String
  timestamp : ℤ
  based_on_aggregation_id : String
  action : String
  entry_price : Option ℚ := none
  stop_loss : Option ℚ := none
  take_profit : Option ℚ := none
  position_size : Option ℚ := none
  meta_confidence_score : ℚ := 0
  meta_assessed_risk_level : String := "Unknown"
  contributing_proposals_ids : List String := []
  status : String
  pending_approval_timestamp : Option ℤ := none
  approval_expiry_timestamp : Option ℤ := none
deriving DecidableEq

/-- `ForexMetaAgent.evaluate_proposals` (trade_meta_agent.py
lines 15-101), with wall-clock time passed in as integer seconds; the
5-minute approval window is 300 seconds. -/
def evaluate_proposals (agg : Option AggregatedForexProposals)
    (statePair : String) (now : ℤ) : ForexFinalDecision :=
  match agg with
  | none =>
    { decision_id := "dec_meta_error", currency_pair := statePair, timestamp := now,
      based_on_aggregation_id := "N/A", action := "STAND_ASIDE",
      meta_confidence_score := 0, meta_assessed_risk_level := "Unknown",
      status := "STATE_SYSTEM_ACTIONED" }
  | some a =>
    let hit := a.proposals.find?
      (fun pr => pr.signal == "BUY" && decide (pr.confidence_score > 11/20))
    let finalAction := match hit with
      | some _ => "EXECUTE_BUY_PENDING_APPROVAL"
      | none => "STAND_ASIDE"
    let pend := containsSub finalAction "PENDING_APPROVAL"
    { decision_id := "dec_meta", currency_pair := a.currency_pair, timestamp := now,
      based_on_aggregation_id := a.aggregation_id, action := finalAction,
      entry_price := hit.bind (fun pr => pr.entry_price),
      stop_loss := hit.bind (fun pr => pr.stop_loss),
      take_profit := hit.bind (fun pr => pr.take_profit),
      position_size := if finalAction ≠ "STAND_ASIDE" then some (1/100) else none,
      meta_confidence_score := match hit with
        | some pr => pr.confidence_score * (4/5)
        | none => 3/10,
      meta_assessed_risk_level := match hit with
        | some pr => pr.sub_agent_risk_level
        | none => "Low",
      contributing_proposals_ids :=
        if finalAction ≠ "STAND_ASIDE" then a.proposals.map (fun pr => pr.proposal_id)
        else [],
      status := if pend then "STATE_PENDING_USER_APPROVAL" else "STATE_SYSTEM_ACTIONED",
      pending_approval_timestamp := if pend then some now else none,
      approval_expiry_timestamp := if pend then some (now + 300) else none }

/-! Concrete fixtures used by witnesses and counterexamples. -/

/-- A well-formed credentials dict. -/
def cred0 : Credentials :=
  { login := some (.int 7), password := some "pw", server := some "srv" }

/-- Fresh broker state: disconnected, venue library available. -/
def st0 : BrokerState :=
  { connected := false, credentials := none, simulated_open_positions := [],
    mt5_available := true, mock_price_cache := [] }

/-- Connected broker state holding credentials. -/
def stC : BrokerState := { st0 with connected := true, credentials := some cred0 }

/-- Fixed random draws. -/
def rng0 : Rng := { ordTag := "aaaa1111", posTag := "bbbb2222", drift := 0, e1 := 0, e2 := 0 }

/-- A live tick. -/
def tick0 : Tick := { bid := 108/100, ask := 10802/10000 }

/-- A venue rejection reply (retcode 10013, "invalid stops"). -/
def send10013 : SendResult := { retcode := 10013, order := 0, deal := 0, comment := "Invalid stops" }

/-- A venue that resolves symbols and ticks but rejects the order. -/
def venueReject : Venue :=
  { symbolInfo := .ok (), symbolSelect := .ok true, symbolInfo2 := .ok (),
    tick := .ok tick0, orderSend := .ok send10013 }

/-- A defaulted venue oracle. -/
def v0 : Venue := {}

/-- A market buy order request. -/
def odBuy : OrderDetails :=
  { type_ := some "market", side := some "buy", pair := some "EURUSD",
    size := some (1/10), sl := some (107/100), tp := some (110/100) }

/-- A market order request with no pair key at all. -/
def odNoPair : OrderDetails := {}

/-- Claim C1: while connected with the venue library available, if the
order reaches the venue and the venue replies with a non-success
retcode, `place_order` returns a failed result carrying that retcode
on the live path, does not fall back to a simulated success, and
leaves the whole broker state (in particular the simulated position
registry) unchanged. -/
theorem place_order_venue_rejection
    (st : BrokerState) (venue : Venue) (rng : Rng) (od : OrderDetails)
    (r : SendResult) (t : Tick) (k : ℤ) (p : String)
    (hc : st.connected = true) (ha : st.mt5_available = true)
    (hmap : orderTypeMap (lowerStr (od.type_.getD "market"))
      (lowerStr (od.side.getD "buy")) = some k)
    (hp : od.pair = some p) (hpne : p ≠ "")
    (hsym : venue.symbolInfo = .ok ())
    (htick : lowerStr (od.type_.getD "market") = "market" → venue.tick = .ok t)
    (hprice : lowerStr (od.type_.getD "market") ≠ "market" → od.price.getD 0 ≠ 0)
    (hsend : venue.orderSend = .ok r)
    (hrc1 : r.retcode ≠ TRADE_RETCODE_DONE) (hrc2 : r.retcode ≠ TRADE_RETCODE_PLACED) :
    place_order st venue rng od =
      .ok (rejectRes "Order failed (venue rejected)." r.retcode "live_attempt_failed", st) := by
  have hsg : symbolGate venue = none := by rw [symbolGate, hsym]
  have hsl : sendLive st venue rng od =
      .ok (rejectRes "Order failed (venue rejected)." r.retcode "live_attempt_failed", st) := by
    rw [sendLive, hsend]
    simp [hrc1, hrc2]
  by_cases hm : lowerStr (od.type_.getD "market") = "market"
  · rw [place_order]
    simp only [hc, ha, Bool.true_eq_false, if_false, hmap, hp, hsg]
    simp only [Option.getD_some, if_neg hpne, hm, if_true, htick hm, hsl]
  · rw [place_order]
    simp only [hc, ha, Bool.true_eq_false, if_false, hmap, hp, hsg]
    simp only [Option.getD_some, if_neg hpne, if_neg hm, if_neg (hprice hm), hsl]

/-- Witness for C1 at a concrete connected state, market buy order and
a venue replying retcode 10013. -/
theorem place_order_venue_rejection_witness :
    stC.connected = true ∧ stC.mt5_available = true ∧
    venueReject.orderSend = .ok send10013 ∧ send10013.retcode = 10013 ∧
    place_order stC venueReject rng0 odBuy =
      .ok (rejectRes "Order failed (venue rejected)." 10013 "live_attempt_failed", stC) := by
  refine ⟨rfl, rfl, rfl, rfl, ?_⟩
  exact place_order_venue_rejection stC venueReject rng0 odBuy send10013 tick0 0 "EURUSD"
    rfl rfl (by decide) rfl (by decide) rfl (fun _ => rfl) (by decide) rfl
    (by decide) (by decide)

/-- Helper for C2: with the symbol key present, the simulated order
placement succeeds with a simulation-tagged order id. -/
theorem simulate_place_order_ok
    (st : BrokerState) (rng : Rng) (od : OrderDetails) (p : String) (reason : String)
    (hp : od.pair = some p) :
    ∃ res st', simulate_place_order st rng od reason = .ok (res, st') ∧
      res.success = true ∧ res.data_source = "simulated" ∧
      res.order_id = some ("sim_ord_" ++ rng.ordTag) := by
  by_cases hm : lowerStr (od.type_.getD "market") = "market"
  · rw [simulate_place_order]
    simp only [hm, if_true, hp]
    exact ⟨_, _, rfl, rfl, rfl, rfl⟩
  · rw [simulate_place_order]
    simp only [if_neg hm]
    exact ⟨_, _, rfl, rfl, rfl, rfl⟩

/-- Claim C2: an order request submitted while disconnected (or with
the venue library absent) is routed to the simulation path: the result
is a success tagged `data_source = "simulated"` whose order id carries
the simulation prefix, and the venue oracle is never consulted (the
outcome is identical for any two venues). -/
theorem place_order_disconnected_simulates
    (st : BrokerState) (v v' : Venue) (rng : Rng) (od : OrderDetails) (p : String)
    (hoff : st.connected = false ∨ st.mt5_available = false)
    (hp : od.pair = some p) :
    (∃ res st', place_order st v rng od = .ok (res, st') ∧
      res.success = true ∧ res.data_source = "simulated" ∧
      res.order_id = some ("sim_ord_" ++ rng.ordTag)) ∧
    place_order st v rng od = place_order st v' rng od := by
  by_cases hcn : st.connected = false
  · have hred : ∀ w : Venue, place_order st w rng od =
        simulate_place_order st rng od "Not connected" := by
      intro w; rw [place_order]; simp [hcn]
    rw [hred v, hred v']
    exact ⟨simulate_place_order_ok st rng od p "Not connected" hp, rfl⟩
  · have hct : st.connected = true := by
      revert hcn; cases st.connected <;> simp
    have hav : st.mt5_available = false := by
      rcases hoff with h | h
      · exact absurd h hcn
      · exact h
    have hred : ∀ w : Venue, place_order st w rng od =
        simulate_place_order st rng od "MT5 library N/A" := by
      intro w; rw [place_order]; simp [hct, hav]
    rw [hred v, hred v']
    exact ⟨simulate_place_order_ok st rng od p "MT5 library N/A" hp, rfl⟩

/-- Witness for C2 at the fresh disconnected state and a market buy
request, against two different venue oracles. -/
theorem place_order_disconnected_simulates_witness :
    st0.connected = false ∧
    ((∃ res st', place_order st0 v0 rng0 odBuy = .ok (res, st') ∧
      res.success = true ∧ res.data_source = "simulated" ∧
      res.order_id = some ("sim_ord_" ++ rng0.ordTag)) ∧
    place_order st0 v0 rng0 odBuy = place_order st0 venueReject rng0 odBuy) :=
  ⟨rfl, place_order_disconnected_simulates st0 v0 venueReject rng0 odBuy "EURUSD"
    (Or.inl rfl) rfl⟩

/-- Claim C3 (code bug): the spec promises that `place_order` always
hands the caller a result object and never an exception, naming the
case of a market order without a symbol while disconnected.  On that
very input the source evaluates `order_details["pair"]` in
`_simulate_place_order` (mt5_broker.py line 295) and raises a
`KeyError`: the modelled call ends in `Except.error`, not in a result
object. -/
theorem place_order_missing_pair_keyerror :
    place_order st0 v0 rng0 odNoPair = .error "KeyError: pair" := by rfl

/-- The venue-side part of a successful `connect`: `initialize` and
`login` both return a truthy value without raising. -/
def venueConnOk (venue : Venue) : Bool :=
  match venue.initResult with
  | .ok true => match venue.loginResult with | .ok true => true | _ => false
  | _ => false

/-- Credentials with the password missing. -/
def credNoPw : Credentials := { login := some (.int 7), server := some "srv" }

/-- A venue accepting initialization and login. -/
def venueLoginOk : Venue := { initResult := .ok true, loginResult := .ok true }

/-- Counterexample to C4 as stated: calling `connect` with a missing
password while the gateway is connected returns failure but leaves the
gateway Connected and the old credentials stored (mt5_broker.py
lines 68-70 return before any state is touched). -/
theorem connect_missing_field_counterexample :
    connect stC v0 credNoPw = (false, stC) ∧
    stC.connected = true ∧ stC.credentials = some cred0 :=
  ⟨rfl, rfl, rfl⟩

/-- Claim C4 (amended): `connect` failures behave per path — with the
venue library absent the gateway ends Disconnected but stored
credentials are untouched; missing credential fields or a non-integer
account id return failure leaving connection state and stored
credentials entirely unchanged; venue-side initialization/login
failures (including exceptions) end Disconnected with cleared
credentials; success ends Connected with the new credentials
retained. -/
theorem connect_transitions :
    (∀ (st : BrokerState) (venue : Venue) (creds : Credentials),
      st.mt5_available = false →
      connect st venue creds = (false, { st with connected := false })) ∧
    (∀ (st : BrokerState) (venue : Venue) (creds : Credentials),
      st.mt5_available = true → credFieldsOk creds = false →
      connect st venue creds = (false, st)) ∧
    (∀ (st : BrokerState) (venue : Venue) (creds : Credentials),
      st.mt5_available = true → credFieldsOk creds = true →
      loginAsInt creds.login = none →
      connect st venue creds = (false, st)) ∧
    (∀ (st : BrokerState) (venue : Venue) (creds : Credentials) (n : ℤ),
      st.mt5_available = true → credFieldsOk creds = true →
      loginAsInt creds.login = some n → venueConnOk venue = false →
      connect st venue creds =
        (false, { st with connected := false, credentials := none })) ∧
    (∀ (st : BrokerState) (venue : Venue) (creds : Credentials) (n : ℤ),
      st.mt5_available = true → credFieldsOk creds = true →
      loginAsInt creds.login = some n → venueConnOk venue = true →
      connect st venue creds =
        (true, { st with connected := true, credentials := some creds })) := by
  refine ⟨?_, ?_, ?_, ?_, ?_⟩
  · intro st venue creds h
    rw [connect]; simp [h]
  · intro st venue creds h hf
    rw [connect]; simp [h, hf]
  · intro st venue creds h hf hl
    rw [connect]; simp [h, hf, hl]
  · intro st venue creds n h hf hl hv
    rw [connect]; simp only [h, hf, hl, Bool.true_eq_false, if_false]
    rw [venueConnOk] at hv
    cases hi : venue.initResult with
    | ok b =>
      cases b
      · simp [hi]
      · rw [hi] at hv
        cases hlo : venue.loginResult with
        | ok c =>
          cases c
          · simp [hi, hlo]
          · rw [hlo] at hv; exact absurd hv (by simp)
        | nil => simp [hi, hlo]
        | exn => simp [hi, hlo]
    | nil => simp [hi]
    | exn => simp [hi]
  · intro st venue creds n h hf hl hv
    rw [connect]; simp only [h, hf, hl, Bool.true_eq_false, if_false]
    rw [venueConnOk] at hv
    cases hi : venue.initResult with
    | ok b =>
      cases b
      · rw [hi] at hv; exact absurd hv (by simp)
      · rw [hi] at hv
        cases hlo : venue.loginResult with
        | ok c =>
          cases c
          · rw [hlo] at hv; exact absurd hv (by simp)
          · simp [hi, hlo]
        | nil => rw [hlo] at hv; exact absurd hv (by simp)
        | exn => rw [hlo] at hv; exact absurd hv (by simp)
    | nil => rw [hi] at hv; exact absurd hv (by simp)
    | exn => rw [hi] at hv; exact absurd hv (by simp)

/-- Witness for the amended C4: a missing-password failure leaves the
connected state as is, and a successful connect from the fresh state
retains the credentials. -/
theorem connect_transitions_witness :
    connect stC v0 credNoPw = (false, stC) ∧
    connect st0 venueLoginOk cred0 =
      (true, { st0 with connected := true, credentials := some cred0 }) :=
  ⟨connect_transitions.2.1 stC v0 credNoPw rfl rfl,
   connect_transitions.2.2.2.2 st0 venueLoginOk cred0 7 rfl rfl rfl rfl⟩

/-- A live open position, ticket 111, with sl = 1.1 and tp = 1.2. -/
def livePos111 : LivePos :=
  { ticket := 111, symbol := "EURUSD", volume := 1/10, type_ := 0, sl := 11/10, tp := 6/5 }

/-- A venue holding position 111 whose `order_send` rejects. -/
def venueMod111 : Venue := { positionsGet := .ok [livePos111], orderSend := .ok send10013 }

/-- A venue `order_send` acceptance reply. -/
def sendDone : SendResult := { retcode := 10009, order := 77, deal := 88, comment := "done" }

/-- A venue holding position 111 whose `order_send` accepts. -/
def venueMod111ok : Venue := { positionsGet := .ok [livePos111], orderSend := .ok sendDone }

/-- Modify parameters equal to position 111's current sl and tp. -/
def pSame : ModifyParams := { sl := .val (11/10), tp := .val (6/5) }

/-- Claim C5 (code bug): modifying position 111 with sl/tp equal to its
current values does NOT short-circuit: the venue request is submitted
and the outcome is whatever the venue replies (failure with the
retcode for a rejecting venue, a live success for an accepting one) —
not the promised no-op success without a venue request.  For open
positions the source never compares requested values against current
ones (mt5_broker.py lines 499-500 only test key presence), and for
pending orders the rebuilt request always carries price/sl/tp, so the
"no actual change" branch (line 517) cannot fire on equal values,
contradicting the source's own stated intent (lines 515-516). -/
theorem modify_order_equal_values_still_sends :
    modify_order stC venueMod111 "111" pSame =
      .ok (rejectRes "Order/Position modify failed." 10013 "live_attempt_failed", stC) ∧
    modify_order stC venueMod111ok "111" pSame =
      .ok ({ success := true, message := "Order/Position modified successfully.",
             data_source := "live" }, stC) :=
  ⟨rfl, rfl⟩

/-- Claim C10: while connected with the venue library available, both
`modify_order` and `close_order` reject an id that does not parse as
an integer immediately with an input-error result and leave the whole
state (in particular the simulated registry) unchanged, never falling
back to the simulated path. -/
theorem live_invalid_id_rejected
    (st : BrokerState) (venue : Venue) (idq : String) (p : ModifyParams) (sz : Option ℚ)
    (hc : st.connected = true) (ha : st.mt5_available = true)
    (hid : parsePyInt idq = none) :
    modify_order st venue idq p =
      .ok (failRes "Invalid order_id format." "input_error", st) ∧
    close_order st venue idq sz =
      .ok (failRes "Invalid ticket format for close_order." "input_error", st) := by
  constructor
  · rw [modify_order]; simp [hc, ha, hid]
  · rw [close_order]; simp [hc, ha, hid]

/-- Witness for C10 at a connected state and the simulation-generated
id "sim_pos_bbbb2222", which does not parse as an integer. -/
theorem live_invalid_id_rejected_witness :
    parsePyInt "sim_pos_bbbb2222" = none ∧
    modify_order stC venueReject "sim_pos_bbbb2222" {} =
      .ok (failRes "Invalid order_id format." "input_error", stC) ∧
    close_order stC venueReject "sim_pos_bbbb2222" none =
      .ok (failRes "Invalid ticket format for close_order." "input_error", stC) :=
  ⟨rfl,
   (live_invalid_id_rejected stC venueReject "sim_pos_bbbb2222" {} none rfl rfl rfl).1,
   (live_invalid_id_rejected stC venueReject "sim_pos_bbbb2222" {} none rfl rfl rfl).2⟩

/-- A position not matching the requested id passes through one step of
the simulated close loop unchanged. -/
theorem simCloseStep_no_match (idq : String) (sz : Option ℚ) (q : SimPosition)
    (h : ¬(q.id = idq ∨ q.order_id_ref = idq)) :
    simCloseStep idq sz q = some q := by
  rw [simCloseStep]; simp [h]

/-- A list without any matching position passes through the simulated
close loop unchanged. -/
theorem filterMap_simCloseStep_no_match (idq : String) (sz : Option ℚ)
    (l : List SimPosition)
    (h : ∀ q ∈ l, ¬(q.id = idq ∨ q.order_id_ref = idq)) :
    l.filterMap (simCloseStep idq sz) = l := by
  induction l with
  | nil => rfl
  | cons q rest ih =>
    rw [List.filterMap_cons, simCloseStep_no_match idq sz q (h q (by simp))]
    rw [ih (fun x hx => h x (by simp [hx]))]

/-- The matching position is dropped by one close step when the
requested positive volume reaches the full-close tolerance. -/
theorem simCloseStep_full (idq : String) (v : ℚ) (pos : SimPosition)
    (hmatch : pos.id = idq ∨ pos.order_id_ref = idq)
    (hv : 0 < v) (hge : v ≥ pos.size - 1/100000) :
    simCloseStep idq (some v) pos = none := by
  rw [simCloseStep]
  simp only [if_pos hmatch, if_pos hv]
  rw [if_pos hge]

/-- Below the tolerance, one close step shrinks the matching position
to the rounded remainder when that remainder stays at or above the
0.01 increment, and drops it otherwise. -/
theorem simCloseStep_part (idq : String) (v : ℚ) (pos : SimPosition)
    (hmatch : pos.id = idq ∨ pos.order_id_ref = idq)
    (hv : 0 < v) (hlt : ¬(v ≥ pos.size - 1/100000)) :
    simCloseStep idq (some v) pos =
      (if roundTo 2 (pos.size - v) ≥ 1/100 then
        some { pos with size := roundTo 2 (pos.size - v), comment := "Partial close" }
      else none) := by
  rw [simCloseStep]
  simp only [if_pos hmatch, if_pos hv]
  rw [if_neg hlt]

/-- Any-match over a registry whose sole match is the middle element. -/
theorem any_match_middle (idq : String) (pre post : List SimPosition)
    (pos : SimPosition) (hmatch : pos.id = idq ∨ pos.order_id_ref = idq) :
    (pre ++ pos :: post).any
      (fun q => decide (q.id = idq ∨ q.order_id_ref = idq)) = true := by
  rw [List.any_append, List.any_cons]
  simp [hmatch]

/-- A position shrunk by a partial close of volume `v`: remaining size
rounded to 2 decimals, comment rewritten. -/
def shrunk (pos : SimPosition) (v : ℚ) : SimPosition :=
  { pos with size := roundTo 2 (pos.size - v), comment := "Partial close" }

/-- Outcome of a simulated close on a registry whose single matching
position sits in the middle: success, and the registry keeps the
non-matching entries around the stepped middle entry. -/
theorem simulate_close_order_spec
    (st : BrokerState) (idq : String) (v : ℚ) (pre post : List SimPosition)
    (pos : SimPosition)
    (hst : st.simulated_open_positions = pre ++ pos :: post)
    (hpre : ∀ q ∈ pre, ¬(q.id = idq ∨ q.order_id_ref = idq))
    (hpost : ∀ q ∈ post, ¬(q.id = idq ∨ q.order_id_ref = idq))
    (hmatch : pos.id = idq ∨ pos.order_id_ref = idq)
    (hv : 0 < v) :
    (simulate_close_order st idq (some v)).1 =
      { success := true, message := "Close action simulated.",
        data_source := "simulated" } ∧
    (simulate_close_order st idq (some v)).2.simulated_open_positions =
      pre ++ ((if v ≥ pos.size - 1/100000 then []
        else if roundTo 2 (pos.size - v) ≥ 1/100 then [shrunk pos v]
        else []) ++ post) := by
  have hact : st.simulated_open_positions.any
      (fun q => decide (q.id = idq ∨ q.order_id_ref = idq)) = true := by
    rw [hst]; exact any_match_middle idq pre post pos hmatch
  have hfm : st.simulated_open_positions.filterMap (simCloseStep idq (some v)) =
      pre ++ ((if v ≥ pos.size - 1/100000 then []
        else if roundTo 2 (pos.size - v) ≥ 1/100 then [shrunk pos v]
        else []) ++ post) := by
    rw [hst, List.filterMap_append, List.filterMap_cons,
      filterMap_simCloseStep_no_match idq (some v) pre hpre,
      filterMap_simCloseStep_no_match idq (some v) post hpost]
    by_cases hge : v ≥ pos.size - 1/100000
    · rw [simCloseStep_full idq v pos hmatch hv hge, if_pos hge]
      simp
    · rw [simCloseStep_part idq v pos hmatch hv hge, if_neg hge, shrunk]
      by_cases h2 : roundTo 2 (pos.size - v) ≥ 1/100
      · rw [if_pos h2, if_pos h2]
        simp
      · rw [if_neg h2, if_neg h2]
        simp
  rw [simulate_close_order]
  simp only [hact, if_true, hfm]
  constructor
  · trivial
  · trivial

/-- Claim C7 (amended): for a simulated registry whose single matching
position is `pos`, closing a positive volume `v` removes the position
when `v` reaches `pos.size - 0.00001` (in particular whenever
`v ≥ pos.size`); below that, the position is left with its size set to
`pos.size - v` rounded to 2 decimals (the 0.01-lot grid) when that
rounded remainder is at least 0.01, and is removed when the rounded
remainder falls below 0.01. -/
theorem simulate_close_volume_accounting
    (st : BrokerState) (idq : String) (v : ℚ) (pre post : List SimPosition)
    (pos : SimPosition)
    (hst : st.simulated_open_positions = pre ++ pos :: post)
    (hpre : ∀ q ∈ pre, ¬(q.id = idq ∨ q.order_id_ref = idq))
    (hpost : ∀ q ∈ post, ¬(q.id = idq ∨ q.order_id_ref = idq))
    (hmatch : pos.id = idq ∨ pos.order_id_ref = idq)
    (hv : 0 < v) :
    (simulate_close_order st idq (some v)).1.success = true ∧
    (v ≥ pos.size - 1/100000 →
      (simulate_close_order st idq (some v)).2.simulated_open_positions =
        pre ++ post) ∧
    (v < pos.size - 1/100000 → roundTo 2 (pos.size - v) ≥ 1/100 →
      (simulate_close_order st idq (some v)).2.simulated_open_positions =
        pre ++ (shrunk pos v :: post)) ∧
    (v < pos.size - 1/100000 → roundTo 2 (pos.size - v) < 1/100 →
      (simulate_close_order st idq (some v)).2.simulated_open_positions =
        pre ++ post) := by
  obtain ⟨h1, h2⟩ :=
    simulate_close_order_spec st idq v pre post pos hst hpre hpost hmatch hv
  refine ⟨by rw [h1], ?_, ?_, ?_⟩
  · intro hge
    rw [h2, if_pos hge]
    simp
  · intro hlt hbig
    rw [h2, if_neg (not_le.mpr hlt), if_pos hbig]
    simp
  · intro hlt hsmall
    rw [h2, if_neg (not_le.mpr hlt), if_neg (not_le.mpr hsmall)]
    simp

/-- A simulated position of size 0.023 lots. -/
def posX : SimPosition :=
  { id := "sim_pos_x", order_id_ref := "sim_ord_x", pair := "EURUSD", type_ := 0,
    size := 23/1000, open_price := 108/100, sl := 0, tp := 0, profit := -23/500,
    comment := "c" }

/-- Disconnected state holding only `posX`. -/
def stSeven : BrokerState := { st0 with simulated_open_positions := [posX] }

/-- Counterexample to C7 as stated: closing 0.01 lots of a 0.023-lot
position leaves a remainder of 0.013 — at least the 0.01 minimum
increment, so the claim predicts `volume = position.volume - v =
0.013` — but the source rounds the remainder to 2 decimals
(mt5_broker.py line 558) and the position is left with size 0.01. -/
theorem simulate_close_partial_counterexample :
    posX.size - 1/100 ≥ 1/100 ∧
    (simulate_close_order stSeven "sim_pos_x"
      (some (1/100))).2.simulated_open_positions.map (fun q => q.size) = [1/100] ∧
    (1/100 : ℚ) ≠ posX.size - 1/100 := by
  have hsize : posX.size = 23/1000 := rfl
  have hround : roundTo 2 (posX.size - 1/100) = 1/100 := by
    rw [hsize, roundTo, rhe]; norm_num
  obtain ⟨h1, h2⟩ := simulate_close_order_spec stSeven "sim_pos_x" (1/100) [] [] posX
    rfl (by simp) (by simp) (Or.inl rfl) (by norm_num)
  have hc1 : ¬((1:ℚ)/100 ≥ posX.size - 1/100000) := by rw [hsize]; norm_num
  have hc2 : roundTo 2 (posX.size - 1/100) ≥ 1/100 := by rw [hround]
  refine ⟨by rw [hsize]; norm_num, ?_, by rw [hsize]; norm_num⟩
  rw [h2, if_neg hc1, if_pos hc2]
  simp only [List.nil_append, List.append_nil, List.map_cons, List.map_nil]
  rw [show (shrunk posX (1/100)).size = roundTo 2 (posX.size - 1/100) from rfl, hround]

/-- Witness for the amended C7 at `posX`: closing 0.01 lots leaves the
position shrunk to the rounded remainder 0.01; closing 0.03 lots
(more than the size) removes it. -/
theorem simulate_close_volume_accounting_witness :
    (simulate_close_order stSeven "sim_pos_x" (some (1/100))).1.success = true ∧
    (simulate_close_order stSeven "sim_pos_x" (some (1/100))).2.simulated_open_positions =
      [shrunk posX (1/100)] ∧
    (simulate_close_order stSeven "sim_pos_x" (some (3/100))).2.simulated_open_positions =
      [] := by
  have hsize : posX.size = 23/1000 := rfl
  have hround : roundTo 2 (posX.size - 1/100) = 1/100 := by
    rw [hsize, roundTo, rhe]; norm_num
  have h1 := simulate_close_volume_accounting stSeven "sim_pos_x" (1/100) [] [] posX
    rfl (by simp) (by simp) (Or.inl rfl) (by norm_num)
  have h2 := simulate_close_volume_accounting stSeven "sim_pos_x" (3/100) [] [] posX
    rfl (by simp) (by simp) (Or.inl rfl) (by norm_num)
  refine ⟨h1.1, ?_, ?_⟩
  · have hx := h1.2.2.1 (by rw [hsize]; norm_num) (by rw [hround])
    simpa using hx
  · have hx := h2.2.1 (by rw [hsize]; norm_num)
    simpa using hx

/-- A simulated position of size 0.02 lots. -/
def posY : SimPosition :=
  { id := "sim_pos_y", order_id_ref := "sim_ord_y", pair := "EURUSD", type_ := 0,
    size := 2/100, open_price := 108/100, sl := 0, tp := 0, profit := -1/25,
    comment := "c" }

/-- Disconnected state holding only `posY`. -/
def stSix : BrokerState := { st0 with simulated_open_positions := [posY] }

/-- Counterexample to C6 as stated: on the simulation-routed path,
asking to close 0.05 lots of a 0.02-lot position does not fail with an
insufficient-volume error — it reports success and removes the whole
position from the registry (mt5_broker.py lines 552-556 treat any
requested volume at or above the position size as a full close). -/
theorem close_order_excess_volume_counterexample :
    posY.size < 5/100 ∧
    (∃ res st', close_order stSix v0 "sim_pos_y" (some (5/100)) = .ok (res, st') ∧
      res.success = true ∧ st'.simulated_open_positions = []) := by
  have hsize : posY.size = 2/100 := rfl
  have hconn : stSix.connected = false := rfl
  have hred : close_order stSix v0 "sim_pos_y" (some (5/100)) =
      .ok (simulate_close_order stSix "sim_pos_y" (some (5/100))) := by
    rw [close_order]; simp [hconn]
  obtain ⟨h1, h2⟩ := simulate_close_order_spec stSix "sim_pos_y" (5/100) [] [] posY
    rfl (by simp) (by simp) (Or.inl rfl) (by norm_num)
  refine ⟨by rw [hsize]; norm_num,
    (simulate_close_order stSix "sim_pos_y" (some (5/100))).1,
    (simulate_close_order stSix "sim_pos_y" (some (5/100))).2, ?_, ?_, ?_⟩
  · rw [hred]
  · rw [h1]
  · rw [h2, if_pos (show (5:ℚ)/100 ≥ posY.size - 1/100000 by rw [hsize]; norm_num)]
    simp

/-- Claim C6 (amended): on the live-routed path a close request whose
volume (rounded to 8 decimals) exceeds the position's volume beyond
the 1e-8 tolerance fails with the insufficient-volume result and
leaves the state unchanged; on the simulation-routed path a request
for more than the position's size reports success and removes the
position entirely. -/
theorem close_order_excess_volume :
    (∀ (st : BrokerState) (venue : Venue) (idq : String) (v : ℚ) (t : ℤ)
        (pos : LivePos) (rest : List LivePos),
      st.connected = true → st.mt5_available = true →
      parsePyInt idq = some t → venue.positionsGet = .ok (pos :: rest) →
      0 < v → roundTo 8 v > pos.volume + 1/100000000 →
      close_order st venue idq (some v) =
        .ok (failRes "Cannot close more than the available volume."
          "live_attempt_failed_insufficient_volume", st)) ∧
    (∀ (st : BrokerState) (venue : Venue) (idq : String) (v : ℚ)
        (pre post : List SimPosition) (pos : SimPosition),
      st.connected = false →
      st.simulated_open_positions = pre ++ pos :: post →
      (∀ q ∈ pre, ¬(q.id = idq ∨ q.order_id_ref = idq)) →
      (∀ q ∈ post, ¬(q.id = idq ∨ q.order_id_ref = idq)) →
      (pos.id = idq ∨ pos.order_id_ref = idq) →
      pos.size < v → 0 < v →
      ∃ res st', close_order st venue idq (some v) = .ok (res, st') ∧
        res.success = true ∧ st'.simulated_open_positions = pre ++ post) := by
  constructor
  · intro st venue idq v t pos rest hc ha hid hpg hv hgt
    rw [close_order]
    simp only [hc, ha, Bool.true_eq_false, if_false, hid, hpg]
    simp only [if_pos hv, if_pos hgt]
  · intro st venue idq v pre post pos hc hst hpre hpost hmatch hlt hv
    have hred : close_order st venue idq (some v) =
        .ok (simulate_close_order st idq (some v)) := by
      rw [close_order]; simp [hc]
    obtain ⟨h1, h2⟩ :=
      simulate_close_order_spec st idq v pre post pos hst hpre hpost hmatch hv
    refine ⟨_, _, by rw [hred], by rw [h1], ?_⟩
    rw [h2, if_pos (by linarith : v ≥ pos.size - 1/100000)]
    simp

/-- Witness for the amended C6: live close of 0.2 lots against
position 111 (0.1 lots) is rejected as insufficient; simulated close
of 0.05 lots of the 0.02-lot `posY` succeeds and empties the
registry. -/
theorem close_order_excess_volume_witness :
    close_order stC venueMod111 "111" (some (2/10)) =
      .ok (failRes "Cannot close more than the available volume."
        "live_attempt_failed_insufficient_volume", stC) ∧
    (∃ res st', close_order stSix v0 "sim_pos_y" (some (5/100)) = .ok (res, st') ∧
      res.success = true ∧ st'.simulated_open_positions = ([] : List SimPosition) ++ []) := by
  constructor
  · refine close_order_excess_volume.1 stC venueMod111 "111" (2/10) 111 livePos111 []
      rfl rfl rfl rfl (by norm_num) ?_
    have h8 : roundTo 8 (2/10) = 1/5 := by rw [roundTo, rhe]; norm_num
    have hvol : livePos111.volume = 1/10 := rfl
    rw [h8, hvol]; norm_num
  · exact close_order_excess_volume.2 stSix v0 "sim_pos_y" (5/100) [] [] posY
      rfl rfl (by simp) (by simp) (Or.inl rfl)
      (by rw [show posY.size = 2/100 from rfl]; norm_num) (by norm_num)

/-- The mock quote is always tagged as mock data. -/
theorem mock_price_source (st : BrokerState) (rng : Rng) (pair : String) :
    (get_mock_current_price st rng pair).1.data_source = "mock" := rfl

/-- Claim C8: quote retrieval always returns a result — while
disconnected it is a mock-tagged quote; while connected a live tick
yields a live-tagged quote, and any adapter failure (no tick value, or
the library unavailable) degrades to a mock-tagged quote instead of an
error. -/
theorem get_current_price_never_fails :
    (∀ (st : BrokerState) (venue : Venue) (rng : Rng) (pair : String),
      st.connected = false →
      (get_current_price st venue rng pair).1.data_source = "mock") ∧
    (∀ (st : BrokerState) (venue : Venue) (rng : Rng) (pair : String) (t : Tick),
      st.connected = true → st.mt5_available = true → venue.tick = .ok t →
      (get_current_price st venue rng pair).1.data_source = "live") ∧
    (∀ (st : BrokerState) (venue : Venue) (rng : Rng) (pair : String),
      st.connected = true → (∀ t, venue.tick ≠ .ok t) →
      (get_current_price st venue rng pair).1.data_source = "mock") := by
  refine ⟨?_, ?_, ?_⟩
  · intro st venue rng pair h
    rw [get_current_price, if_pos h]
    exact mock_price_source st rng pair
  · intro st venue rng pair t h1 h2 h3
    rw [get_current_price]
    simp only [h1, Bool.true_eq_false, if_false, h2, if_true, h3]
  · intro st venue rng pair h1 h2
    rw [get_current_price]
    simp only [h1, Bool.true_eq_false, if_false]
    by_cases hA : st.mt5_available = true
    · simp only [hA, if_true]
      cases ht : venue.tick with
      | ok t => exact absurd ht (h2 t)
      | nil => exact mock_price_source st rng pair
      | exn => exact mock_price_source st rng pair
    · have hA' : st.mt5_available = false := by
        revert hA; cases st.mt5_available <;> simp
      simp only [hA', Bool.false_eq_true, if_false]
      exact mock_price_source st rng pair

/-- Witness for C8: disconnected quote is mock-tagged; connected quote
with a live tick is live-tagged. -/
theorem get_current_price_never_fails_witness :
    st0.connected = false ∧
    (get_current_price st0 v0 rng0 "EURUSD").1.data_source = "mock" ∧
    (get_current_price stC venueReject rng0 "EURUSD").1.data_source = "live" :=
  ⟨rfl, get_current_price_never_fails.1 st0 v0 rng0 "EURUSD" rfl,
   get_current_price_never_fails.2.1 stC venueReject rng0 "EURUSD" tick0 rfl rfl rfl⟩

/-- The meta agent's decision is either a buy pending approval with a
5-minute window, or a terminal stand-aside. -/
theorem evaluate_proposals_dichotomy
    (agg : Option AggregatedForexProposals) (sp : String) (now : ℤ) :
    ((evaluate_proposals agg sp now).action = "EXECUTE_BUY_PENDING_APPROVAL" ∧
     (evaluate_proposals agg sp now).status = "STATE_PENDING_USER_APPROVAL" ∧
     (evaluate_proposals agg sp now).pending_approval_timestamp = some now ∧
     (evaluate_proposals agg sp now).approval_expiry_timestamp = some (now + 300)) ∨
    ((evaluate_proposals agg sp now).action = "STAND_ASIDE" ∧
     (evaluate_proposals agg sp now).status = "STATE_SYSTEM_ACTIONED" ∧
     (evaluate_proposals agg sp now).pending_approval_timestamp = none ∧
     (evaluate_proposals agg sp now).approval_expiry_timestamp = none) := by
  have hpT : containsSub "EXECUTE_BUY_PENDING_APPROVAL" "PENDING_APPROVAL" = true := rfl
  have hpF : containsSub "STAND_ASIDE" "PENDING_APPROVAL" = false := rfl
  cases agg with
  | none => exact Or.inr ⟨rfl, rfl, rfl, rfl⟩
  | some a =>
    cases hfind : a.proposals.find?
        (fun pr => pr.signal == "BUY" && decide (pr.confidence_score > 11/20)) with
    | some pr =>
      left
      simp only [evaluate_proposals, hfind, hpT, if_true]
      refine ⟨?_, ?_, ?_, ?_⟩ <;> trivial
    | none =>
      right
      simp only [evaluate_proposals, hfind, hpF, Bool.false_eq_true, if_false]
      refine ⟨?_, ?_, ?_, ?_⟩ <;> trivial

/-- Claim C9: a decision whose chosen action requires approval is
created pending approval, with pending-since equal to the creation
time and expiry exactly 300 seconds (5 minutes) later; a Hold or
StandAside decision is created directly in the terminal
system-actioned status with no approval window. -/
theorem evaluate_proposals_approval_window :
    (∀ (agg : Option AggregatedForexProposals) (sp : String) (now : ℤ),
      containsSub (evaluate_proposals agg sp now).action "PENDING_APPROVAL" = true →
      (evaluate_proposals agg sp now).status = "STATE_PENDING_USER_APPROVAL" ∧
      (evaluate_proposals agg sp now).pending_approval_timestamp = some now ∧
      (evaluate_proposals agg sp now).approval_expiry_timestamp = some (now + 300)) ∧
    (∀ (agg : Option AggregatedForexProposals) (sp : String) (now : ℤ),
      ((evaluate_proposals agg sp now).action = "HOLD" ∨
       (evaluate_proposals agg sp now).action = "STAND_ASIDE") →
      (evaluate_proposals agg sp now).status = "STATE_SYSTEM_ACTIONED" ∧
      (evaluate_proposals agg sp now).pending_approval_timestamp = none ∧
      (evaluate_proposals agg sp now).approval_expiry_timestamp = none) := by
  constructor
  · intro agg sp now hpend
    rcases evaluate_proposals_dichotomy agg sp now with ⟨_, h2, h3, h4⟩ | ⟨ha, _, _, _⟩
    · exact ⟨h2, h3, h4⟩
    · rw [ha] at hpend
      exact absurd hpend (by decide)
  · intro agg sp now hact
    rcases evaluate_proposals_dichotomy agg sp now with ⟨ha, _, _, _⟩ | ⟨_, h2, h3, h4⟩
    · rcases hact with h | h <;> rw [ha] at h <;> exact absurd h (by decide)
    · exact ⟨h2, h3, h4⟩

/-- A swing-trader BUY proposal above the 0.55 confidence gate. -/
def propBuy : ForexProposal :=
  { proposal_id := "p1", source_agent_type := "SwingTrader", signal := "BUY",
    confidence_score := 3/5, sub_agent_risk_level := "Medium",
    entry_price := some (108/100) }

/-- An aggregation containing only `propBuy`. -/
def aggBuy : AggregatedForexProposals :=
  { aggregation_id := "agg1", currency_pair := "EURUSD", proposals := [propBuy] }

/-- Witness for C9: the BUY aggregation yields a pending-approval
decision with a 300-second window at creation time 1000; no
aggregation yields a terminal stand-aside decision. -/
theorem evaluate_proposals_approval_window_witness :
    (evaluate_proposals (some aggBuy) "EURUSD" 1000).status =
      "STATE_PENDING_USER_APPROVAL" ∧
    (evaluate_proposals (some aggBuy) "EURUSD" 1000).pending_approval_timestamp =
      some 1000 ∧
    (evaluate_proposals (some aggBuy) "EURUSD" 1000).approval_expiry_timestamp =
      some (1000 + 300) ∧
    (evaluate_proposals none "EURUSD" 0).status = "STATE_SYSTEM_ACTIONED" ∧
    (evaluate_proposals none "EURUSD" 0).pending_approval_timestamp = none := by
  have hfind : aggBuy.proposals.find?
      (fun pr => pr.signal == "BUY" && decide (pr.confidence_score > 11/20)) =
      some propBuy := by
    rw [show aggBuy.proposals = [propBuy] from rfl]
    apply List.find?_cons_of_pos
    simp only [Bool.and_eq_true, beq_iff_eq, decide_eq_true_eq]
    exact ⟨rfl, by rw [show propBuy.confidence_score = 3/5 from rfl]; norm_num⟩
  have hact : (evaluate_proposals (some aggBuy) "EURUSD" 1000).action =
      "EXECUTE_BUY_PENDING_APPROVAL" := by
    simp only [evaluate_proposals, hfind]
  have hpend : containsSub (evaluate_proposals (some aggBuy) "EURUSD" 1000).action
      "PENDING_APPROVAL" = true := by
    rw [hact]; rfl
  obtain ⟨h1, h2, h3⟩ :=
    evaluate_proposals_approval_window.1 (some aggBuy) "EURUSD" 1000 hpend
  obtain ⟨g1, g2, _⟩ :=
    evaluate_proposals_approval_window.2 none "EURUSD" 0 (Or.inr rfl)
  exact ⟨h1, h2, h3, g1, g2⟩

end FxAgent
